import Mathlib

/-!
# Shadow2D: the `s2d::Application` shell

A shallow embedding of `src/app/Application.cpp`.

* The members of `Application` become the fields of a structure; every member
  function becomes a pure function that takes the instance and returns the
  instance afterwards together with the list of library calls it issued.
* What the outside world hands to the code (clock samples, the outcome of
  `glfwInit`, `glfwCreateWindow`, `glewInit`, `glGetError`, the key events
  pending at a poll, the bodies of the user hooks) is an explicit argument.
* `double` clock values are exact rationals.
* A library call is recorded with its handle argument (null or not); what the
  library does with a null handle is outside the model.
-/

namespace s2d

set_option linter.unusedVariables false

/-! ## External constants -/

/-- The type `GLenum` of the OpenGL headers (an unsigned integer). -/
abbrev GLenum := Nat

/-- The value of `GL_NO_ERROR` in the OpenGL headers. -/
def GL_NO_ERROR : GLenum := 0

/-- The value of `GLFW_KEY_ESCAPE` in the GLFW 3 header. -/
def GLFW_KEY_ESCAPE : Int := 256

/-- The value of `GLFW_PRESS` in the GLFW 3 header. -/
def GLFW_PRESS : Int := 1

/-! ## Data model -/

/-- The library-side state of the one window this file creates, restricted to
what the code of this file writes: the close flag (`glfwSetWindowShouldClose`)
and whether the key callback is installed (`glfwSetKeyCallback`). -/
structure GLFWwindow where
  shouldClose : Bool
  keyCallback : Bool
deriving DecidableEq, Repr

/-- The value of a `GLFWwindow*` argument as a library call sees it: `NULL` or
the address of the window. -/
inductive Ptr where
  | null
  | valid
deriving DecidableEq, Repr

/-- The pointer value of the member `_window`. -/
def ptr : Option GLFWwindow → Ptr
  | none => Ptr.null
  | some _ => Ptr.valid

/-- Modelled from the spec: the member declarations are in `app/Application.h`,
which is not among the sources. The members are the ones the constructor's
initialiser list names; section 3 of the spec gives `fps` and `frameCount` as
integers (no width), so the counters are unbounded integers here.
`_window` is `none` for `nullptr`. -/
structure Application where
  _running : Bool
  _lastUpdate : ℚ
  _lastFPSUpdate : ℚ
  _fps : Int
  _frames : Int
  _window : Option GLFWwindow
deriving DecidableEq, Repr

/-- The calls this file makes into GLFW, GLEW, OpenGL and the C library, with
the arguments that matter. -/
inductive Call where
  | glfwGetTime
  | glfwInit
  | glfwWindowHint
  | glfwCreateWindow (width height : Int) (title : String)
  | glfwSetWindowUserPointer (window : Ptr)
  | glfwMakeContextCurrent (window : Ptr)
  | glewInit
  | glfwSetKeyCallback (window : Ptr)
  | glfwDestroyWindow (window : Ptr)
  | glfwTerminate
  | glfwSwapBuffers (window : Ptr)
  | glfwSetWindowTitle (window : Ptr) (title : String)
  | glfwSetWindowShouldClose (window : Ptr) (value : Bool)
  | glGetError
  | gluErrorString (error : GLenum)
  | fprintf (msg : String)
  | getchar
deriving DecidableEq, Repr

/-- One statement of `run()`: a direct library call, or a call of a function
that itself issues library calls (listed in `body`, in order). -/
inductive Ev where
  | glfwPollEvents (body : List Call)
  | call (c : Call)
  | update (dt : ℚ) (body : List Call)
  | render (body : List Call)
  | checkGlError (body : List Call)
deriving DecidableEq, Repr

/-- A key event as GLFW hands it to a key callback. -/
structure KeyEvent where
  key : Int
  scancode : Int
  action : Int
  mods : Int
deriving DecidableEq, Repr

/-- What the body of a user hook (`update`, `render`) does to the instance. The
hooks are virtual and defined by subclasses; a subclass reaches the instance
through the protected member functions of this file: `setTitle`, `end` and
`checkGlError` (the latter with the value `glGetError` returns at that point). -/
inductive HookCall where
  | setTitle (title : String)
  | end_
  | checkGlError (error : GLenum)
deriving DecidableEq, Repr

/-- What the outside world supplies to one call of `run()`: the key events
pending at the poll, the clock sample, the bodies of the two hooks, and the
value of `glGetError` at the end of the frame. -/
structure FrameInput where
  keys : List KeyEvent
  time : ℚ
  update : ℚ → List HookCall
  render : List HookCall
  error : GLenum

/-- What the outside world supplies to the constructor: the two clock samples
of the initialiser list and the outcome of the three initialisation steps. -/
structure CtorEnv where
  timeLastUpdate : ℚ
  timeLastFPSUpdate : ℚ
  initOk : Bool
  windowOk : Bool
  glewOk : Bool

/-! ## Member functions -/

namespace Application

/-- `Application::end`. -/
def end_ (app : Application) : Application :=
  { app with _running := false }

/-- Modelled from the spec: `isRunning()` is defined in `app/Application.h`,
which is not among the sources; step 8 of `run()` in the spec is "return
whether the instance is still running". -/
def isRunning (app : Application) : Bool :=
  app._running

/-- `Application::setTitle`. -/
def setTitle (app : Application) (title : String) : Application × List Call :=
  if app._window ≠ none then
    (app, [Call.glfwSetWindowTitle (ptr app._window) title])
  else
    (app, [])

/-- `Application::checkGlError`; `error` is the value `glGetError()` returns. -/
def checkGlError (app : Application) (error : GLenum) : Application × List Call :=
  if error ≠ GL_NO_ERROR then
    ({ app with _running := false },
      [Call.glGetError, Call.gluErrorString error,
       Call.fprintf "OpenGL error: %s\nPress return to continue\n", Call.getchar])
  else
    (app, [Call.glGetError])

/-- `Application::_default_key_callback`: a static function, it sees the
window the event belongs to and not the instance. -/
def _default_key_callback (window : GLFWwindow) (key scancode action mods : Int) :
    GLFWwindow × List Call :=
  if key = GLFW_KEY_ESCAPE ∧ action = GLFW_PRESS then
    ({ window with shouldClose := true }, [Call.glfwSetWindowShouldClose Ptr.valid true])
  else
    (window, [])

/-- The key events of one poll, delivered in order to the key callback. -/
def dispatchKeys (window : GLFWwindow) : List KeyEvent → GLFWwindow × List Call
  | [] => (window, [])
  | e :: es =>
    let r := _default_key_callback window e.key e.scancode e.action e.mods
    let rs := dispatchKeys r.1 es
    (rs.1, r.2 ++ rs.2)

/-- The part of `glfwPollEvents()` that reaches this file: pending key events
go to the key callback when a window exists and the callback is installed. -/
def glfwPollEvents (window : Option GLFWwindow) (keys : List KeyEvent) :
    Option GLFWwindow × List Call :=
  match window with
  | some w =>
    if w.keyCallback then
      let r := dispatchKeys w keys
      (some r.1, r.2)
    else
      (some w, [])
  | none => (none, [])

/-- One call made by a hook body. -/
def hookCall (app : Application) : HookCall → Application × List Call
  | HookCall.setTitle title => setTitle app title
  | HookCall.end_ => (end_ app, [])
  | HookCall.checkGlError error => checkGlError app error

/-- The body of a hook, executed call by call. -/
def runHook (app : Application) : List HookCall → Application × List Call
  | [] => (app, [])
  | c :: cs =>
    let r := hookCall app c
    let rs := runHook r.1 cs
    (rs.1, r.2 ++ rs.2)

/-- The result of `run()`: the instance afterwards, the value returned and the
statements executed. -/
structure RunResult where
  app : Application
  ret : Bool
  trace : List Ev

/-- `Application::run`. -/
def run (app : Application) (i : FrameInput) : RunResult :=
  -- Handle events
  let p := glfwPollEvents app._window i.keys
  let app := { app with _window := p.1 }
  -- Calculate delta time
  let time := i.time
  let dt := time - app._lastUpdate
  let fpsDt := time - app._lastFPSUpdate
  -- Update timers
  let app := { app with _lastUpdate := time }
  -- Update frame counter
  let app := { app with _frames := app._frames + 1 }
  -- Update FPS if time > 1 second
  let app :=
    if fpsDt ≥ 1 then
      { app with _fps := app._frames, _frames := 0, _lastFPSUpdate := time }
    else app
  -- Call application update
  let u := runHook app (i.update dt)
  -- Call application render
  let r := runHook u.1 i.render
  -- Flip buffers
  let swap := Call.glfwSwapBuffers (ptr r.1._window)
  -- Check for errors
  let c := checkGlError r.1 i.error
  { app := c.1
    ret := isRunning c.1
    trace := [Ev.glfwPollEvents p.2, Ev.call Call.glfwGetTime, Ev.update dt u.2,
              Ev.render r.2, Ev.call swap, Ev.checkGlError c.2] }

/-- The constructor `Application::Application`. -/
def construct (width height : Int) (title : String) (hidden : Bool) (env : CtorEnv) :
    Application × List Call :=
  let app : s2d.Application :=
    { _running := true, _lastUpdate := env.timeLastUpdate,
      _lastFPSUpdate := env.timeLastFPSUpdate, _fps := 0, _frames := 0, _window := none }
  let t0 := [Call.glfwGetTime, Call.glfwGetTime, Call.glfwInit]
  -- Init glfw
  if !env.initOk then
    (end_ app, t0 ++ [Call.fprintf "Failed to initialise glfw\n"])
  else
    -- Hide window if enabled
    let t1 := if hidden then t0 ++ [Call.glfwWindowHint] else t0
    -- Create window
    let created : Option GLFWwindow :=
      if env.windowOk then some { shouldClose := false, keyCallback := false } else none
    let app := { app with _window := created }
    let t2 := t1 ++ [Call.glfwCreateWindow width height title]
    if app._window = none then
      (end_ app, t2 ++ [Call.fprintf "Failed to create window\n"])
    else
      let t3 := t2 ++ [Call.glfwSetWindowUserPointer (ptr app._window),
                       Call.glfwMakeContextCurrent (ptr app._window), Call.glewInit]
      -- Initialise glew
      if !env.glewOk then
        (end_ app, t3 ++ [Call.fprintf "Failed to initialise glew\n"])
      else
        -- Set default key callback
        ({ app with _window := app._window.map (fun w => { w with keyCallback := true }) },
          t3 ++ [Call.glfwSetKeyCallback (ptr app._window)])

/-- The destructor `Application::~Application`. -/
def destruct (app : Application) : Application × List Call :=
  if app._window ≠ none then
    ({ app with _window := none }, [Call.glfwDestroyWindow (ptr app._window), Call.glfwTerminate])
  else
    (app, [Call.glfwTerminate])

/-- The caller's loop: `run()` called once per element of `is`, each call on
the instance the previous one left; the results of the calls, in order. -/
def runMany (app : Application) : List FrameInput → List RunResult
  | [] => []
  | i :: is =>
    let r := run app i
    r :: runMany r.app is

/-- The instance after the calls of `runMany`. -/
def runAll (app : Application) : List FrameInput → Application
  | [] => app
  | i :: is => runAll (run app i).app is

/-- Whether a call made by a hook clears `_running`: `end()`, or a
`checkGlError()` that finds an error. -/
def stops : HookCall → Bool
  | HookCall.setTitle _ => false
  | HookCall.end_ => true
  | HookCall.checkGlError error => decide (error ≠ GL_NO_ERROR)

/-- The `dt` arguments of the `update` calls of a trace, in order. -/
def updateDts : List Ev → List ℚ
  | [] => []
  | Ev.update dt _ :: es => dt :: updateDts es
  | _ :: es => updateDts es

/-- A hook body that neither calls `end()` nor makes a `checkGlError()` call
that finds an error. -/
def quietHook (cs : List HookCall) : Prop :=
  ∀ c ∈ cs, stops c = false

instance (cs : List HookCall) : Decidable (quietHook cs) :=
  inferInstanceAs (Decidable (∀ c ∈ cs, stops c = false))

/-- The key callback invoked by the library for an event on the instance's
window (there is no event without a window). -/
def onKey (app : Application) (e : KeyEvent) : Application × List Call :=
  match app._window with
  | some w =>
    let r := _default_key_callback w e.key e.scancode e.action e.mods
    ({ app with _window := some r.1 }, r.2)
  | none => (app, [])

/-- The operations on a constructed instance. -/
inductive Op where
  | run (i : FrameInput)
  | end_
  | setTitle (title : String)
  | checkGlError (error : GLenum)
  | key (e : KeyEvent)

/-- The instance after one operation. -/
def step (app : Application) : Op → Application
  | Op.run i => (run app i).app
  | Op.end_ => end_ app
  | Op.setTitle title => (setTitle app title).1
  | Op.checkGlError error => (checkGlError app error).1
  | Op.key e => (onKey app e).1

/-- The instance with the close flag of its window (if any) set to `b`. -/
def setClose (b : Bool) (app : Application) : Application :=
  { app with _window := app._window.map (fun w => { w with shouldClose := b }) }

/-- Whether a key event is a press of Escape. -/
def isEscPress (e : KeyEvent) : Bool :=
  decide (e.key = GLFW_KEY_ESCAPE ∧ e.action = GLFW_PRESS)

/-- The frames of a scenario: `n` calls, the `k`-th (from 1) at clock
`t0 + k * step`, everything else taken from `g`. -/
def scenario (t0 step : ℚ) (g : ℕ → FrameInput) (n : ℕ) : List FrameInput :=
  (List.range n).map (fun k => { g k with time := t0 + ((k : ℚ) + 1) * step })

end Application

/-! ## Lemmas on the member functions -/

namespace Application

/-- The instance `checkGlError()` leaves. -/
theorem checkGlError_app (app : Application) (error : GLenum) :
    (checkGlError app error).1 =
      { app with _running := app._running && decide (error = GL_NO_ERROR) } := by
  unfold checkGlError
  by_cases h : error = GL_NO_ERROR <;> simp [h]

/-- The instance one call of a hook leaves. -/
theorem hookCall_app (app : Application) (c : HookCall) :
    (hookCall app c).1 = { app with _running := app._running && !stops c } := by
  cases c with
  | setTitle title =>
    simp only [hookCall, setTitle, stops]
    split <;> simp
  | end_ => simp [hookCall, end_, stops]
  | checkGlError error =>
    simp only [hookCall, checkGlError_app, stops]
    by_cases h : error = GL_NO_ERROR <;> simp [h]

/-- The instance a hook body leaves: only `_running` can change. -/
theorem runHook_app (app : Application) (cs : List HookCall) :
    (runHook app cs).1 = { app with _running := app._running && !cs.any stops } := by
  induction cs generalizing app with
  | nil => simp [runHook]
  | cons c cs ih =>
    simp only [runHook, ih, hookCall_app, List.any_cons]
    cases app._running <;> cases stops c <;> simp

/-- The instance `run()` leaves, field by field. -/
theorem run_app (app : Application) (i : FrameInput) :
    (run app i).app =
      { _running := app._running && !(i.update (i.time - app._lastUpdate)).any stops
                      && !i.render.any stops && decide (i.error = GL_NO_ERROR)
        _lastUpdate := i.time
        _lastFPSUpdate := if i.time - app._lastFPSUpdate ≥ 1 then i.time else app._lastFPSUpdate
        _fps := if i.time - app._lastFPSUpdate ≥ 1 then app._frames + 1 else app._fps
        _frames := if i.time - app._lastFPSUpdate ≥ 1 then 0 else app._frames + 1
        _window := (glfwPollEvents app._window i.keys).1 } := by
  simp only [run, checkGlError_app, runHook_app]
  split <;> simp

/-- The value `run()` returns is `_running` at its end. -/
theorem run_ret (app : Application) (i : FrameInput) :
    (run app i).ret = (run app i).app._running := by
  simp [run, isRunning]

/-- The counters and clock samples right after construction. -/
theorem construct_counters (width height : Int) (title : String) (hidden : Bool)
    (env : CtorEnv) :
    (construct width height title hidden env).1._fps = 0
      ∧ (construct width height title hidden env).1._frames = 0
      ∧ (construct width height title hidden env).1._lastUpdate = env.timeLastUpdate
      ∧ (construct width height title hidden env).1._lastFPSUpdate = env.timeLastFPSUpdate := by
  unfold construct
  cases env.initOk <;> cases env.windowOk <;> cases env.glewOk <;> simp [end_]

/-- The one `dt` of a call of `run()`. -/
theorem run_updateDts (app : Application) (i : FrameInput) :
    updateDts (run app i).trace = [i.time - app._lastUpdate] := by
  simp [run, updateDts]

/-- The `dt` of each call of a sequence. -/
theorem runMany_dts (app : Application) (fs : List FrameInput) :
    (runMany app fs).map (fun r => updateDts r.trace)
      = (List.zipWith (fun t p => t - p) (fs.map FrameInput.time)
          (app._lastUpdate :: fs.map FrameInput.time)).map (fun d => [d]) := by
  induction fs generalizing app with
  | nil => simp [runMany]
  | cons i fs ih =>
    simp only [runMany, List.map_cons, List.zipWith_cons_cons, run_updateDts, ih]
    rw [run_app]

/-- The value of `_lastUpdate` after each call of a sequence. -/
theorem runMany_lastUpdate (app : Application) (fs : List FrameInput) :
    (runMany app fs).map (fun r => r.app._lastUpdate) = fs.map FrameInput.time := by
  induction fs generalizing app with
  | nil => simp [runMany]
  | cons i fs ih =>
    simp only [runMany, List.map_cons, ih]
    rw [run_app]

/-- A non-decreasing clock gives non-negative `dt`. -/
theorem runMany_dts_nonneg (app : Application) (fs : List FrameInput)
    (h : List.Chain (fun a b => a ≤ b) app._lastUpdate (fs.map FrameInput.time)) :
    ∀ r ∈ runMany app fs, ∀ dt ∈ updateDts r.trace, 0 ≤ dt := by
  induction fs generalizing app with
  | nil => simp [runMany]
  | cons i fs ih =>
    simp only [List.map_cons, List.chain_cons] at h
    intro r hr dt hdt
    simp only [runMany, List.mem_cons] at hr
    rcases hr with rfl | hr
    · rw [run_updateDts] at hdt
      simp only [List.mem_singleton] at hdt
      rw [hdt]
      exact sub_nonneg.mpr h.1
    · refine ih (run app i).app ?_ r hr dt hdt
      rw [run_app]
      exact h.2

/-- A hook body is quiet exactly when none of its calls stops the instance. -/
theorem any_stops_eq_false (cs : List HookCall) :
    cs.any stops = false ↔ quietHook cs := by
  simp [quietHook]

/-- A quiet hook body does not call `end()`, and each `checkGlError()` call in
it finds no error. -/
theorem quietHook_iff (cs : List HookCall) :
    quietHook cs ↔
      HookCall.end_ ∉ cs ∧ ∀ error, HookCall.checkGlError error ∈ cs → error = GL_NO_ERROR := by
  unfold quietHook
  constructor
  · intro h
    refine ⟨fun hm => ?_, fun error hm => ?_⟩
    · simpa [stops] using h _ hm
    · simpa [stops] using h _ hm
  · rintro ⟨h1, h2⟩ c hc
    cases c with
    | setTitle title => rfl
    | end_ => exact absurd hc h1
    | checkGlError error => simp [stops, h2 error hc]

/-- When `run()` returns `true`. -/
theorem run_ret_iff (app : Application) (i : FrameInput) :
    (run app i).ret = true ↔
      app._running = true ∧ quietHook (i.update (i.time - app._lastUpdate))
        ∧ quietHook i.render ∧ i.error = GL_NO_ERROR := by
  rw [run_ret, run_app]
  simp only [Bool.and_eq_true, Bool.not_eq_true', decide_eq_true_eq, any_stops_eq_false]
  tauto

/-- A call of `run()` on a stopped instance returns `false` and leaves it stopped. -/
theorem run_not_running (app : Application) (i : FrameInput) (h : app._running = false) :
    (run app i).ret = false ∧ (run app i).app._running = false := by
  rw [run_ret, run_app]
  simp [h]

/-- Every call on a stopped instance returns `false`. -/
theorem runMany_not_running (app : Application) (fs : List FrameInput)
    (h : app._running = false) : ∀ r ∈ runMany app fs, r.ret = false := by
  induction fs generalizing app with
  | nil => simp [runMany]
  | cons i fs ih =>
    intro r hr
    simp only [runMany, List.mem_cons] at hr
    rcases hr with rfl | hr
    · exact (run_not_running app i h).1
    · exact ih _ (run_not_running app i h).2 r hr

/-- No operation restarts a stopped instance. -/
theorem step_not_running (app : Application) (op : Op) (h : app._running = false) :
    (step app op)._running = false := by
  cases op with
  | run i => exact (run_not_running app i h).2
  | end_ => simp [step, end_]
  | setTitle title =>
    simp only [step, setTitle]
    split <;> exact h
  | checkGlError error => simp [step, checkGlError_app, h]
  | key e =>
    simp only [step, onKey]
    split <;> exact h

/-- No sequence of operations restarts a stopped instance. -/
theorem foldl_step_not_running (ops : List Op) (app : Application)
    (h : app._running = false) : (ops.foldl step app)._running = false := by
  induction ops generalizing app with
  | nil => exact h
  | cons op ops ih => exact ih _ (step_not_running app op h)

/-- A poll neither creates nor destroys the window. -/
theorem glfwPollEvents_ptr (window : Option GLFWwindow) (keys : List KeyEvent) :
    ptr (glfwPollEvents window keys).1 = ptr window := by
  unfold glfwPollEvents
  cases window with
  | none => rfl
  | some w => by_cases h : w.keyCallback = true <;> simp [h, ptr]

/-- A hook body leaves `_window` as it is. -/
theorem runHook_window (app : Application) (cs : List HookCall) :
    (runHook app cs).1._window = app._window := by
  rw [runHook_app]

/-- The library calls of `checkGlError()`. -/
theorem checkGlError_calls (app : Application) (error : GLenum) :
    (checkGlError app error).2 =
      Call.glGetError ::
        (if error ≠ GL_NO_ERROR then
          [Call.gluErrorString error,
           Call.fprintf "OpenGL error: %s\nPress return to continue\n", Call.getchar]
         else []) := by
  unfold checkGlError
  split <;> rfl

/-- The statements `run()` executes. -/
theorem run_trace (app : Application) (i : FrameInput) :
    ∃ p u r c, (run app i).trace =
      [Ev.glfwPollEvents p, Ev.call Call.glfwGetTime,
       Ev.update (i.time - app._lastUpdate) u, Ev.render r,
       Ev.call (Call.glfwSwapBuffers (ptr app._window)),
       Ev.checkGlError (Call.glGetError :: c)] := by
  by_cases h : i.time - app._lastFPSUpdate ≥ 1 <;>
    simp only [run, h, ↓reduceIte, checkGlError_calls, runHook_window, glfwPollEvents_ptr] <;>
    exact ⟨_, _, _, _, rfl⟩

/-- The instance a fully successful construction yields. -/
theorem construct_ok (width height : Int) (title : String) (hidden : Bool) (t1 t2 : ℚ) :
    (construct width height title hidden ⟨t1, t2, true, true, true⟩).1 =
      { _running := true, _lastUpdate := t1, _lastFPSUpdate := t2, _fps := 0, _frames := 0,
        _window := some { shouldClose := false, keyCallback := true } } := by
  simp [construct]

/-- Quiet frames on a running instance all return `true`. -/
theorem runMany_quiet (app : Application) (fs : List FrameInput) (h : app._running = true)
    (hq : ∀ j ∈ fs, (∀ dt, quietHook (j.update dt)) ∧ quietHook j.render
      ∧ j.error = GL_NO_ERROR) : ∀ r ∈ runMany app fs, r.ret = true := by
  induction fs generalizing app with
  | nil => simp [runMany]
  | cons i fs ih =>
    have hi := hq i (List.mem_cons_self i fs)
    have hret : (run app i).ret = true := (run_ret_iff app i).mpr ⟨h, hi.1 _, hi.2.1, hi.2.2⟩
    intro r hr
    simp only [runMany, List.mem_cons] at hr
    rcases hr with rfl | hr
    · exact hret
    · refine ih (run app i).app ?_ (fun j hj => hq j (List.mem_cons_of_mem i hj)) r hr
      rw [← run_ret]
      exact hret

/-- The pointer is null exactly for `none`. -/
theorem ptr_eq_null (w : Option GLFWwindow) : ptr w = Ptr.null ↔ w = none := by
  cases w <;> simp [ptr]

/-- The library calls of a hook call depend on the instance only through the
nullness of `_window`. -/
theorem hookCall_calls_congr (a b : Application) (h : ptr a._window = ptr b._window)
    (c : HookCall) : (hookCall a c).2 = (hookCall b c).2 := by
  cases c with
  | setTitle title =>
    simp only [hookCall, setTitle, h]
    have hn : a._window = none ↔ b._window = none := by
      rw [← ptr_eq_null, ← ptr_eq_null, h]
    by_cases hb : b._window = none
    · simp [hb, hn.mpr hb]
    · simp [hb, mt hn.mp hb]
  | end_ => rfl
  | checkGlError error => simp only [hookCall, checkGlError_calls]

/-- The library calls of a hook body depend on the instance only through the
nullness of `_window`. -/
theorem runHook_calls_congr (cs : List HookCall) (a b : Application)
    (h : ptr a._window = ptr b._window) : (runHook a cs).2 = (runHook b cs).2 := by
  induction cs generalizing a b with
  | nil => rfl
  | cons c cs ih =>
    simp only [runHook]
    rw [hookCall_calls_congr a b h c, ih (hookCall a c).1 (hookCall b c).1]
    rw [hookCall_app, hookCall_app]
    exact h

/-- The statements `run()` executes, in full. -/
theorem run_trace_eq (app : Application) (i : FrameInput) :
    (run app i).trace =
      [Ev.glfwPollEvents (glfwPollEvents app._window i.keys).2, Ev.call Call.glfwGetTime,
       Ev.update (i.time - app._lastUpdate)
         (runHook app (i.update (i.time - app._lastUpdate))).2,
       Ev.render (runHook app i.render).2,
       Ev.call (Call.glfwSwapBuffers (ptr app._window)),
       Ev.checkGlError (Call.glGetError ::
         (if i.error ≠ GL_NO_ERROR then
           [Call.gluErrorString i.error,
            Call.fprintf "OpenGL error: %s\nPress return to continue\n", Call.getchar]
          else []))] := by
  have h1 : ∀ (a : Application) (cs : List HookCall),
      ptr a._window = ptr app._window → (runHook a cs).2 = (runHook app cs).2 :=
    fun a cs h => runHook_calls_congr cs a app h
  by_cases h : i.time - app._lastFPSUpdate ≥ 1 <;>
    simp only [run, h, ↓reduceIte, checkGlError_calls, runHook_window, glfwPollEvents_ptr,
      List.cons.injEq, Ev.update.injEq, Ev.render.injEq, true_and, and_true] <;>
    exact ⟨h1 _ _ (by simp only [glfwPollEvents_ptr]),
      h1 _ _ (by simp only [runHook_window, glfwPollEvents_ptr])⟩

/-- The key callback, unfolded. -/
theorem callback_eq (window : GLFWwindow) (key scancode action mods : Int) :
    _default_key_callback window key scancode action mods =
      if key = GLFW_KEY_ESCAPE ∧ action = GLFW_PRESS then
        ({ window with shouldClose := true }, [Call.glfwSetWindowShouldClose Ptr.valid true])
      else (window, []) := rfl

/-- The effect of a list of key events: the close flag is set when one of them
is an Escape press, with one close request per such event. -/
theorem dispatchKeys_eq (keys : List KeyEvent) (w : GLFWwindow) :
    dispatchKeys w keys =
      ({ w with shouldClose := w.shouldClose || keys.any isEscPress },
       (keys.filter isEscPress).map (fun _ => Call.glfwSetWindowShouldClose Ptr.valid true)) := by
  induction keys generalizing w with
  | nil => simp [dispatchKeys]
  | cons e es ih =>
    simp only [dispatchKeys, ih, callback_eq, List.any_cons, List.filter_cons]
    by_cases h : e.key = GLFW_KEY_ESCAPE ∧ e.action = GLFW_PRESS
    · have he : isEscPress e = true := by simp [isEscPress, h]
      simp [h, he]
    · have he : isEscPress e = false := by simp [isEscPress, h]
      simp [h, he]

/-- The calls of a poll do not depend on the close flag. -/
theorem glfwPollEvents_setClose (b : Bool) (w : Option GLFWwindow) (keys : List KeyEvent) :
    (glfwPollEvents (w.map (fun w => { w with shouldClose := b })) keys).2
        = (glfwPollEvents w keys).2
      ∧ ptr (glfwPollEvents (w.map (fun w => { w with shouldClose := b })) keys).1
        = ptr (glfwPollEvents w keys).1 := by
  cases w with
  | none => simp [glfwPollEvents]
  | some w =>
    simp only [Option.map_some', glfwPollEvents, dispatchKeys_eq]
    by_cases hk : w.keyCallback = true <;> simp [hk, ptr]

end Application

/-! ## The claims -/

namespace Application

/-- C1. `run()` as a step on the counters, for every instance, clock sample,
key events, hook bodies and error state: when `now - _lastFPSUpdate >= 1` the
call sets `_fps` to the old `_frames + 1`, `_frames` to 0 and `_lastFPSUpdate`
to `now`; otherwise `_fps` and `_lastFPSUpdate` keep their value and `_frames`
grows by one. From a construction whose clock samples are both `t0`: five
calls 0.1s apart leave `_fps = 0`, `_frames = 5`; with calls 0.15s apart the
seventh sets `_fps = 7`, `_frames = 0`, and after the tenth `_fps = 7`,
`_frames = 3`. -/
theorem C1_fps_counter (app : Application) (i : FrameInput)
    (width height : Int) (title : String) (hidden : Bool) (t0 : ℚ)
    (initOk windowOk glewOk : Bool) (g : ℕ → FrameInput) :
    ((run app i).app._fps
        = if i.time - app._lastFPSUpdate ≥ 1 then app._frames + 1 else app._fps)
      ∧ ((run app i).app._frames
        = if i.time - app._lastFPSUpdate ≥ 1 then 0 else app._frames + 1)
      ∧ ((run app i).app._lastFPSUpdate
        = if i.time - app._lastFPSUpdate ≥ 1 then i.time else app._lastFPSUpdate)
      ∧ (let app0 := (construct width height title hidden
            ⟨t0, t0, initOk, windowOk, glewOk⟩).1
         app0._fps = 0 ∧ app0._frames = 0
          ∧ (runAll app0 (scenario t0 (1 / 10) g 5))._fps = 0
          ∧ (runAll app0 (scenario t0 (1 / 10) g 5))._frames = 5
          ∧ (runAll app0 (scenario t0 (3 / 20) g 6))._fps = 0
          ∧ (runAll app0 (scenario t0 (3 / 20) g 6))._frames = 6
          ∧ (runAll app0 (scenario t0 (3 / 20) g 7))._fps = 7
          ∧ (runAll app0 (scenario t0 (3 / 20) g 7))._frames = 0
          ∧ (runAll app0 (scenario t0 (3 / 20) g 10))._fps = 7
          ∧ (runAll app0 (scenario t0 (3 / 20) g 10))._frames = 3) := by
  refine ⟨by rw [run_app], by rw [run_app], by rw [run_app], ?_⟩
  have hc := construct_counters width height title hidden ⟨t0, t0, initOk, windowOk, glewOk⟩
  generalize (construct width height title hidden ⟨t0, t0, initOk, windowOk, glewOk⟩).1 = a at hc
  obtain ⟨h1, h2, h3, h4⟩ := hc
  simp only at h3 h4
  have r5 : List.range 5 = [0, 1, 2, 3, 4] := by decide
  have r6 : List.range 6 = [0, 1, 2, 3, 4, 5] := by decide
  have r7 : List.range 7 = [0, 1, 2, 3, 4, 5, 6] := by decide
  have r10 : List.range 10 = [0, 1, 2, 3, 4, 5, 6, 7, 8, 9] := by decide
  simp only [scenario, r5, r6, r7, r10, List.map, runAll, run_app, h1, h2, h4]
  norm_num

/-- C2. After a construction whose clock sample for `_lastUpdate` is `t0`, for
every sequence of `run()` calls with clock samples `t1, t2, ...`: the `k`-th
call invokes `update` exactly once with `dt = t_k - t_(k-1)` (`t1 - t0` for
the first), `_lastUpdate` is `t_k` after the `k`-th call, and when
`t0 ≤ t1 ≤ t2 ≤ ...` every `dt` is at least 0. -/
theorem C2_delta_time (width height : Int) (title : String) (hidden : Bool)
    (env : CtorEnv) (fs : List FrameInput) :
    ((runMany (construct width height title hidden env).1 fs).map
        (fun r => updateDts r.trace)
      = (List.zipWith (fun t p => t - p) (fs.map FrameInput.time)
          (env.timeLastUpdate :: fs.map FrameInput.time)).map (fun d => [d]))
    ∧ ((runMany (construct width height title hidden env).1 fs).map
        (fun r => r.app._lastUpdate) = fs.map FrameInput.time)
    ∧ (List.Chain (fun a b => a ≤ b) env.timeLastUpdate (fs.map FrameInput.time) →
        ∀ r ∈ runMany (construct width height title hidden env).1 fs,
          ∀ dt ∈ updateDts r.trace, 0 ≤ dt) := by
  have hc := (construct_counters width height title hidden env).2.2.1
  refine ⟨?_, runMany_lastUpdate _ fs, ?_⟩
  · rw [runMany_dts, hc]
  · intro h
    apply runMany_dts_nonneg
    rw [hc]
    exact h

/-- C2 at a construction at clock 2 followed by calls at clocks 5/2, 5/2 and 4. -/
theorem C2_delta_time_witness :
    (runMany (construct 640 480 "demo" false ⟨2, 2, true, true, true⟩).1
        [⟨[], 5 / 2, fun _ => [], [], 0⟩, ⟨[], 5 / 2, fun _ => [HookCall.end_], [], 0⟩,
         ⟨[], 4, fun _ => [], [], 0⟩]).map (fun r => updateDts r.trace)
      = [[1 / 2], [0], [3 / 2]]
    ∧ ∀ r ∈ runMany (construct 640 480 "demo" false ⟨2, 2, true, true, true⟩).1
        [⟨[], 5 / 2, fun _ => [], [], 0⟩, ⟨[], 5 / 2, fun _ => [HookCall.end_], [], 0⟩,
         ⟨[], 4, fun _ => [], [], 0⟩], ∀ dt ∈ updateDts r.trace, 0 ≤ dt := by
  have h := C2_delta_time 640 480 "demo" false ⟨2, 2, true, true, true⟩
    [⟨[], 5 / 2, fun _ => [], [], 0⟩, ⟨[], 5 / 2, fun _ => [HookCall.end_], [], 0⟩,
     ⟨[], 4, fun _ => [], [], 0⟩]
  refine ⟨?_, h.2.2 ?_⟩
  · rw [h.1]
    norm_num
  · norm_num

/-- C3 as stated fails. On a successfully constructed instance (running, with
a window), in a frame whose `update` hook calls the protected `checkGlError()`
while error 1280 is pending: the instance was running, no hook called `end()`,
the error query at the end of the frame reports no error, and yet `run()`
returns `false`. -/
theorem C3_counterexample :
    (construct 640 480 "demo" false ⟨0, 0, true, true, true⟩).1._running = true
    ∧ (construct 640 480 "demo" false ⟨0, 0, true, true, true⟩).1._window ≠ none
    ∧ HookCall.end_ ∉ ([HookCall.checkGlError 1280] : List HookCall)
    ∧ HookCall.end_ ∉ ([] : List HookCall)
    ∧ (0 : GLenum) = GL_NO_ERROR
    ∧ (run (construct 640 480 "demo" false ⟨0, 0, true, true, true⟩).1
        ⟨[], 1, fun _ => [HookCall.checkGlError 1280], [], 0⟩).ret = false
    ∧ ¬ ((run (construct 640 480 "demo" false ⟨0, 0, true, true, true⟩).1
          ⟨[], 1, fun _ => [HookCall.checkGlError 1280], [], 0⟩).ret = true ↔
        ((construct 640 480 "demo" false ⟨0, 0, true, true, true⟩).1._running = true
          ∧ HookCall.end_ ∉ ([HookCall.checkGlError 1280] : List HookCall)
          ∧ HookCall.end_ ∉ ([] : List HookCall)
          ∧ (0 : GLenum) = GL_NO_ERROR)) := by
  have hret : (run (construct 640 480 "demo" false ⟨0, 0, true, true, true⟩).1
      ⟨[], 1, fun _ => [HookCall.checkGlError 1280], [], 0⟩).ret = false := by
    rw [run_ret, run_app]
    simp [stops, GL_NO_ERROR]
  rw [hret, construct_ok]
  simp [GL_NO_ERROR]

/-- C3, amended. For every instance (in particular one whose construction
succeeded: it is running and has a window), `run()` returns `true` if and only
if the instance was running when the call started, neither hook called `end()`
or made a `checkGlError()` call that found an error, and the error query at
the end of the call reported no error. Hence a call in which an error is found
(at the end or by a hook) returns `false`, and after a successful construction
every call returns `true` as long as no frame calls `end()` or finds an error. -/
theorem C3_run_returns (app : Application) (i : FrameInput)
    (width height : Int) (title : String) (hidden : Bool) (t1 t2 : ℚ)
    (fs : List FrameInput) :
    ((run app i).ret = true ↔
      app._running = true
        ∧ (HookCall.end_ ∉ i.update (i.time - app._lastUpdate)
          ∧ ∀ error, HookCall.checkGlError error ∈ i.update (i.time - app._lastUpdate) →
              error = GL_NO_ERROR)
        ∧ (HookCall.end_ ∉ i.render
          ∧ ∀ error, HookCall.checkGlError error ∈ i.render → error = GL_NO_ERROR)
        ∧ i.error = GL_NO_ERROR)
    ∧ (i.error ≠ GL_NO_ERROR → (run app i).ret = false)
    ∧ (∀ error, error ≠ GL_NO_ERROR →
        HookCall.checkGlError error ∈ i.update (i.time - app._lastUpdate) ++ i.render →
        (run app i).ret = false)
    ∧ (construct width height title hidden ⟨t1, t2, true, true, true⟩).1._running = true
    ∧ (construct width height title hidden ⟨t1, t2, true, true, true⟩).1._window ≠ none
    ∧ ((∀ j ∈ fs, (∀ dt, quietHook (j.update dt)) ∧ quietHook j.render
          ∧ j.error = GL_NO_ERROR) →
        ∀ r ∈ runMany (construct width height title hidden ⟨t1, t2, true, true, true⟩).1 fs,
          r.ret = true) := by
  have hiff := run_ret_iff app i
  rw [quietHook_iff, quietHook_iff] at hiff
  refine ⟨hiff, ?_, ?_, ?_, ?_, ?_⟩
  · intro he
    rw [← Bool.not_eq_true, hiff]
    exact fun h => he h.2.2.2
  · intro error he hmem
    rw [← Bool.not_eq_true, hiff]
    rintro ⟨-, hu, hr, -⟩
    rcases List.mem_append.mp hmem with hm | hm
    · exact he (hu.2 error hm)
    · exact he (hr.2 error hm)
  · rw [construct_ok]
  · rw [construct_ok]
    simp
  · intro hq
    apply runMany_quiet _ _ _ hq
    rw [construct_ok]

/-- C3 (amended) at concrete inputs: a frame with a pending error at its end
returns `false`; three quiet frames after a successful construction all return
`true`. -/
theorem C3_run_returns_witness :
    (run ⟨true, 0, 0, 0, 0, some ⟨false, true⟩⟩ ⟨[], 1, fun _ => [], [], 1280⟩).ret = false
    ∧ ∀ r ∈ runMany (construct 640 480 "demo" false ⟨0, 0, true, true, true⟩).1
        [⟨[], 1, fun _ => [HookCall.setTitle "a"], [], 0⟩,
         ⟨[], 2, fun _ => [], [HookCall.checkGlError 0], 0⟩,
         ⟨[], 3, fun _ => [], [], 0⟩], r.ret = true :=
  ⟨(C3_run_returns ⟨true, 0, 0, 0, 0, some ⟨false, true⟩⟩ ⟨[], 1, fun _ => [], [], 1280⟩
      640 480 "demo" false 0 0 []).2.1 (by decide),
   (C3_run_returns ⟨true, 0, 0, 0, 0, some ⟨false, true⟩⟩ ⟨[], 1, fun _ => [], [], 1280⟩
      640 480 "demo" false 0 0
      [⟨[], 1, fun _ => [HookCall.setTitle "a"], [], 0⟩,
       ⟨[], 2, fun _ => [], [HookCall.checkGlError 0], 0⟩,
       ⟨[], 3, fun _ => [], [], 0⟩]).2.2.2.2.2 (by simp [quietHook, stops, GL_NO_ERROR])⟩

/-- C4. Every call of `run()` executes, in this order, one event poll, (the
clock query,) one `update(dt)` with `dt = now - _lastUpdate`, one `render()`,
one buffer swap and one error check that queries `glGetError`, whatever the
hooks do. If the `update` hook calls `end()`, that same call therefore still
renders, swaps and checks; it returns `false`, and so does every later call. -/
theorem C4_frame_order (app : Application) (i : FrameInput) (later : List FrameInput) :
    (∃ p u r c, (run app i).trace =
      [Ev.glfwPollEvents p, Ev.call Call.glfwGetTime,
       Ev.update (i.time - app._lastUpdate) u, Ev.render r,
       Ev.call (Call.glfwSwapBuffers (ptr app._window)),
       Ev.checkGlError (Call.glGetError :: c)])
    ∧ (HookCall.end_ ∈ i.update (i.time - app._lastUpdate) →
        (run app i).ret = false ∧ ∀ r ∈ runMany (run app i).app later, r.ret = false) := by
  refine ⟨run_trace app i, ?_⟩
  intro hend
  have hret : (run app i).ret = false := by
    rw [← Bool.not_eq_true, run_ret_iff, quietHook_iff]
    exact fun h => h.2.1.1 hend
  refine ⟨hret, runMany_not_running _ later ?_⟩
  rw [← run_ret]
  exact hret

/-- C4 at a running instance whose `update` hook calls `end()`: the frame is
completed, the call returns `false`, and so do the next two calls. -/
theorem C4_frame_order_witness :
    (run ⟨true, 0, 0, 0, 0, some ⟨false, true⟩⟩
        ⟨[], 1 / 2, fun _ => [HookCall.end_], [HookCall.setTitle "t"], 0⟩).trace
      = [Ev.glfwPollEvents [], Ev.call Call.glfwGetTime, Ev.update (1 / 2) [],
         Ev.render [Call.glfwSetWindowTitle Ptr.valid "t"],
         Ev.call (Call.glfwSwapBuffers Ptr.valid), Ev.checkGlError [Call.glGetError]]
    ∧ (run ⟨true, 0, 0, 0, 0, some ⟨false, true⟩⟩
        ⟨[], 1 / 2, fun _ => [HookCall.end_], [HookCall.setTitle "t"], 0⟩).ret = false
    ∧ ∀ r ∈ runMany (run ⟨true, 0, 0, 0, 0, some ⟨false, true⟩⟩
          ⟨[], 1 / 2, fun _ => [HookCall.end_], [HookCall.setTitle "t"], 0⟩).app
        [⟨[], 1, fun _ => [], [], 0⟩, ⟨[], 2, fun _ => [], [], 0⟩], r.ret = false :=
  ⟨by norm_num [run, runHook, hookCall, setTitle, end_, checkGlError, glfwPollEvents,
        dispatchKeys, ptr, GL_NO_ERROR]; simp,
   (C4_frame_order ⟨true, 0, 0, 0, 0, some ⟨false, true⟩⟩
      ⟨[], 1 / 2, fun _ => [HookCall.end_], [HookCall.setTitle "t"], 0⟩
      [⟨[], 1, fun _ => [], [], 0⟩, ⟨[], 2, fun _ => [], [], 0⟩]).2 (by simp)⟩

/-- C5. `_running = false` is absorbing: from an instance that is not running,
every operation (`run()` with arbitrary hooks, `end()`, `setTitle()`,
`checkGlError()` with or without a pending error, a key event) and every
sequence of them leaves `_running = false`, and any `run()` after them returns
`false`. -/
theorem C5_not_running_absorbing (app : Application) (op : Op) (ops : List Op)
    (i : FrameInput) (h : app._running = false) :
    (step app op)._running = false
    ∧ (ops.foldl step app)._running = false
    ∧ (run (ops.foldl step app) i).ret = false :=
  ⟨step_not_running app op h, foldl_step_not_running ops app h,
   (run_not_running _ i (foldl_step_not_running ops app h)).1⟩

/-- C5 at an instance stopped by `end()`, through a quiet `run()`, a
`checkGlError()` without error, a `setTitle()` and an Escape press. -/
theorem C5_not_running_absorbing_witness :
    (end_ ⟨true, 0, 0, 0, 0, some ⟨false, true⟩⟩)._running = false
    ∧ (step (end_ ⟨true, 0, 0, 0, 0, some ⟨false, true⟩⟩)
        (Op.run ⟨[], 1, fun _ => [], [], 0⟩))._running = false
    ∧ (List.foldl step (end_ ⟨true, 0, 0, 0, 0, some ⟨false, true⟩⟩)
        [Op.run ⟨[], 1, fun _ => [], [], 0⟩, Op.checkGlError 0, Op.setTitle "t",
         Op.key ⟨256, 0, 1, 0⟩])._running = false
    ∧ (run (List.foldl step (end_ ⟨true, 0, 0, 0, 0, some ⟨false, true⟩⟩)
        [Op.run ⟨[], 1, fun _ => [], [], 0⟩, Op.checkGlError 0, Op.setTitle "t",
         Op.key ⟨256, 0, 1, 0⟩]) ⟨[], 2, fun _ => [], [], 0⟩).ret = false :=
  ⟨rfl, C5_not_running_absorbing (end_ ⟨true, 0, 0, 0, 0, some ⟨false, true⟩⟩)
    (Op.run ⟨[], 1, fun _ => [], [], 0⟩)
    [Op.run ⟨[], 1, fun _ => [], [], 0⟩, Op.checkGlError 0, Op.setTitle "t",
     Op.key ⟨256, 0, 1, 0⟩] ⟨[], 2, fun _ => [], [], 0⟩ rfl⟩

/-- C6 as stated fails. An instance constructed at clock 0 and stopped by
`end()` is not running; a `run()` at clock 2 on it still invokes `update(2)`
and `render()` and swaps buffers, moves `_lastUpdate` and `_lastFPSUpdate`
from 0 to 2 and `_fps` from 0 to 1. -/
theorem C6_counterexample :
    (end_ (construct 640 480 "demo" false ⟨0, 0, true, true, true⟩).1)._running = false
    ∧ (run (end_ (construct 640 480 "demo" false ⟨0, 0, true, true, true⟩).1)
        ⟨[], 2, fun _ => [], [], 0⟩).trace
      = [Ev.glfwPollEvents [], Ev.call Call.glfwGetTime, Ev.update 2 [], Ev.render [],
         Ev.call (Call.glfwSwapBuffers Ptr.valid), Ev.checkGlError [Call.glGetError]]
    ∧ (end_ (construct 640 480 "demo" false ⟨0, 0, true, true, true⟩).1)._lastUpdate = 0
    ∧ (run (end_ (construct 640 480 "demo" false ⟨0, 0, true, true, true⟩).1)
        ⟨[], 2, fun _ => [], [], 0⟩).app._lastUpdate = 2
    ∧ (end_ (construct 640 480 "demo" false ⟨0, 0, true, true, true⟩).1)._lastFPSUpdate = 0
    ∧ (run (end_ (construct 640 480 "demo" false ⟨0, 0, true, true, true⟩).1)
        ⟨[], 2, fun _ => [], [], 0⟩).app._lastFPSUpdate = 2
    ∧ (end_ (construct 640 480 "demo" false ⟨0, 0, true, true, true⟩).1)._fps = 0
    ∧ (run (end_ (construct 640 480 "demo" false ⟨0, 0, true, true, true⟩).1)
        ⟨[], 2, fun _ => [], [], 0⟩).app._fps = 1 := by
  rw [run_trace_eq, run_app, construct_ok]
  norm_num [end_, runHook, glfwPollEvents, dispatchKeys, ptr, GL_NO_ERROR]

/-- C6, amended. For every instance with `_running = false`, a call of `run()`
returns `false` and leaves `_running = false`, but it is not idle: it sets
`_lastUpdate` to the clock sample and advances the FPS counters as for a
running instance, and, when the instance has a window, it executes the same
statements as a running instance: the event poll, `update(dt)`, `render()`,
the buffer swap and the error check. -/
theorem C6_run_when_not_running (app : Application) (i : FrameInput)
    (h : app._running = false) :
    (run app i).ret = false
    ∧ (run app i).app._running = false
    ∧ (run app i).app._lastUpdate = i.time
    ∧ ((run app i).app._fps
        = if i.time - app._lastFPSUpdate ≥ 1 then app._frames + 1 else app._fps)
    ∧ ((run app i).app._frames
        = if i.time - app._lastFPSUpdate ≥ 1 then 0 else app._frames + 1)
    ∧ ((run app i).app._lastFPSUpdate
        = if i.time - app._lastFPSUpdate ≥ 1 then i.time else app._lastFPSUpdate)
    ∧ (app._window ≠ none →
        (run app i).trace = (run { app with _running := true } i).trace
        ∧ ∃ p u r c, (run app i).trace =
            [Ev.glfwPollEvents p, Ev.call Call.glfwGetTime,
             Ev.update (i.time - app._lastUpdate) u, Ev.render r,
             Ev.call (Call.glfwSwapBuffers Ptr.valid),
             Ev.checkGlError (Call.glGetError :: c)]) := by
  refine ⟨(run_not_running app i h).1, (run_not_running app i h).2,
    by rw [run_app], by rw [run_app], by rw [run_app], by rw [run_app], ?_⟩
  intro hw
  constructor
  · rw [run_trace_eq, run_trace_eq]
    simp only [List.cons.injEq, Ev.update.injEq, Ev.render.injEq, true_and, and_true]
    exact ⟨runHook_calls_congr _ _ _ rfl, runHook_calls_congr _ _ _ rfl⟩
  · have hp : ptr app._window = Ptr.valid := by
      cases hw2 : app._window with
      | none => exact absurd hw2 hw
      | some w => rfl
    rw [← hp]
    exact run_trace app i

/-- C6 (amended) at an instance constructed at clock 0 and stopped by `end()`,
in a frame at clock 3. -/
theorem C6_run_when_not_running_witness :
    (end_ (construct 640 480 "demo" false ⟨0, 0, true, true, true⟩).1)._running = false
    ∧ (run (end_ (construct 640 480 "demo" false ⟨0, 0, true, true, true⟩).1)
        ⟨[], 3, fun _ => [], [], 0⟩).ret = false
    ∧ (run (end_ (construct 640 480 "demo" false ⟨0, 0, true, true, true⟩).1)
        ⟨[], 3, fun _ => [], [], 0⟩).app._lastUpdate = 3
    ∧ ∃ p u r c, (run (end_ (construct 640 480 "demo" false ⟨0, 0, true, true, true⟩).1)
        ⟨[], 3, fun _ => [], [], 0⟩).trace =
          [Ev.glfwPollEvents p, Ev.call Call.glfwGetTime,
           Ev.update (3 - (end_ (construct 640 480 "demo" false
             ⟨0, 0, true, true, true⟩).1)._lastUpdate) u, Ev.render r,
           Ev.call (Call.glfwSwapBuffers Ptr.valid),
           Ev.checkGlError (Call.glGetError :: c)] :=
  ⟨by simp [construct, end_],
   (C6_run_when_not_running (end_ (construct 640 480 "demo" false ⟨0, 0, true, true, true⟩).1)
      ⟨[], 3, fun _ => [], [], 0⟩ (by simp [construct, end_])).1,
   (C6_run_when_not_running (end_ (construct 640 480 "demo" false ⟨0, 0, true, true, true⟩).1)
      ⟨[], 3, fun _ => [], [], 0⟩ (by simp [construct, end_])).2.2.1,
   ((C6_run_when_not_running (end_ (construct 640 480 "demo" false ⟨0, 0, true, true, true⟩).1)
      ⟨[], 3, fun _ => [], [], 0⟩ (by simp [construct, end_])).2.2.2.2.2.2
        (by simp [construct, end_])).2⟩

/-- C7. For every outcome of the three initialisation steps: the constructed
instance is running if and only if all three succeeded. When `glfwInit` fails
the instance is not running, `_window` is null and no window is created, no
context is made current and the loader is not called; when window creation
fails the instance is not running, `_window` is null, the loader is not called
and no key callback is registered; when the loader fails the instance is not
running and no key callback is registered. `_fps` and `_frames` are 0 in every
case; when all succeed the key callback is registered on the window. -/
theorem C7_constructor (width height : Int) (title : String) (hidden : Bool)
    (env : CtorEnv) :
    ((construct width height title hidden env).1._running = true ↔
      env.initOk = true ∧ env.windowOk = true ∧ env.glewOk = true)
    ∧ (env.initOk = false →
        (construct width height title hidden env).1._running = false
        ∧ (construct width height title hidden env).1._window = none
        ∧ (∀ w h t, Call.glfwCreateWindow w h t ∉ (construct width height title hidden env).2)
        ∧ (∀ p, Call.glfwSetWindowUserPointer p ∉ (construct width height title hidden env).2)
        ∧ (∀ p, Call.glfwMakeContextCurrent p ∉ (construct width height title hidden env).2)
        ∧ Call.glewInit ∉ (construct width height title hidden env).2
        ∧ (∀ p, Call.glfwSetKeyCallback p ∉ (construct width height title hidden env).2))
    ∧ (env.windowOk = false →
        (construct width height title hidden env).1._running = false
        ∧ (construct width height title hidden env).1._window = none
        ∧ (∀ p, Call.glfwMakeContextCurrent p ∉ (construct width height title hidden env).2)
        ∧ Call.glewInit ∉ (construct width height title hidden env).2
        ∧ (∀ p, Call.glfwSetKeyCallback p ∉ (construct width height title hidden env).2))
    ∧ (env.glewOk = false →
        (construct width height title hidden env).1._running = false
        ∧ (∀ p, Call.glfwSetKeyCallback p ∉ (construct width height title hidden env).2))
    ∧ (env.initOk = true → env.windowOk = true → env.glewOk = true →
        (construct width height title hidden env).1._window
            = some { shouldClose := false, keyCallback := true }
        ∧ (construct width height title hidden env).2.getLast?
            = some (Call.glfwSetKeyCallback Ptr.valid))
    ∧ (construct width height title hidden env).1._fps = 0
    ∧ (construct width height title hidden env).1._frames = 0 := by
  unfold construct
  cases env.initOk <;> cases env.windowOk <;> cases env.glewOk <;> cases hidden <;>
    simp [end_, ptr]

/-- C7 at the three failing outcomes and at the successful one. -/
theorem C7_constructor_witness :
    ((construct 640 480 "demo" true ⟨0, 0, false, true, true⟩).1._running = false
      ∧ (construct 640 480 "demo" true ⟨0, 0, false, true, true⟩).2
        = [Call.glfwGetTime, Call.glfwGetTime, Call.glfwInit,
           Call.fprintf "Failed to initialise glfw\n"])
    ∧ ((construct 640 480 "demo" true ⟨0, 0, true, false, true⟩).1._window = none
      ∧ (construct 640 480 "demo" true ⟨0, 0, true, false, true⟩).2
        = [Call.glfwGetTime, Call.glfwGetTime, Call.glfwInit, Call.glfwWindowHint,
           Call.glfwCreateWindow 640 480 "demo", Call.fprintf "Failed to create window\n"])
    ∧ (construct 640 480 "demo" true ⟨0, 0, true, true, false⟩).1._running = false
    ∧ (construct 640 480 "demo" true ⟨0, 0, true, true, true⟩).1._window
        = some { shouldClose := false, keyCallback := true } :=
  ⟨⟨((C7_constructor 640 480 "demo" true ⟨0, 0, false, true, true⟩).2.1 rfl).1, by decide⟩,
   ⟨((C7_constructor 640 480 "demo" true ⟨0, 0, true, false, true⟩).2.2.1 rfl).2.1, by decide⟩,
   ((C7_constructor 640 480 "demo" true ⟨0, 0, true, true, false⟩).2.2.2.1 rfl).1,
   ((C7_constructor 640 480 "demo" true ⟨0, 0, true, true, true⟩).2.2.2.2.1 rfl rfl rfl).1⟩

/-- C8, what the code does on a null `_window`: `setTitle()` issues no call
and the poll dispatches nothing, but `run()` calls `glfwSwapBuffers` with the
null handle (between `render()` and the error check). -/
theorem C8_null_window (app : Application) (i : FrameInput) (title : String)
    (h : app._window = none) :
    (setTitle app title).2 = []
    ∧ Ev.call (Call.glfwSwapBuffers Ptr.null) ∈ (run app i).trace
    ∧ ∃ u r c, (run app i).trace =
        [Ev.glfwPollEvents [], Ev.call Call.glfwGetTime,
         Ev.update (i.time - app._lastUpdate) u, Ev.render r,
         Ev.call (Call.glfwSwapBuffers Ptr.null), Ev.checkGlError c] := by
  have ht : ∃ u r c, (run app i).trace =
      [Ev.glfwPollEvents [], Ev.call Call.glfwGetTime,
       Ev.update (i.time - app._lastUpdate) u, Ev.render r,
       Ev.call (Call.glfwSwapBuffers Ptr.null), Ev.checkGlError c] := by
    rw [run_trace_eq, h]
    exact ⟨_, _, _, rfl⟩
  refine ⟨by simp [setTitle, h], ?_, ht⟩
  obtain ⟨u, r, c, hc⟩ := ht
  rw [hc]
  simp

/-- C8 at an instance whose window creation failed: the first `run()` swaps
buffers on the null handle. -/
theorem C8_null_window_witness :
    (construct 640 480 "demo" false ⟨0, 0, true, false, true⟩).1._window = none
    ∧ Ev.call (Call.glfwSwapBuffers Ptr.null) ∈
        (run (construct 640 480 "demo" false ⟨0, 0, true, false, true⟩).1
          ⟨[], 1, fun _ => [], [], 0⟩).trace :=
  ⟨by decide,
   (C8_null_window (construct 640 480 "demo" false ⟨0, 0, true, false, true⟩).1
      ⟨[], 1, fun _ => [], [], 0⟩ "t" (by decide)).2.1⟩

/-- C9. For every instance, the destructor calls `glfwDestroyWindow` if and
only if `_window` is non-null (once, on the window, never on a null handle),
leaves `_window` null, and then calls `glfwTerminate` exactly once, as its
last call; `_running`, `_fps` and `_frames` keep their values. -/
theorem C9_destructor (app : Application) :
    ((destruct app).2 =
      if app._window ≠ none then [Call.glfwDestroyWindow Ptr.valid, Call.glfwTerminate]
      else [Call.glfwTerminate])
    ∧ ((∃ p, Call.glfwDestroyWindow p ∈ (destruct app).2) ↔ app._window ≠ none)
    ∧ Call.glfwDestroyWindow Ptr.null ∉ (destruct app).2
    ∧ (destruct app).1._window = none
    ∧ (destruct app).2.count Call.glfwTerminate = 1
    ∧ (destruct app).2.getLast? = some Call.glfwTerminate
    ∧ (destruct app).1._running = app._running
    ∧ (destruct app).1._fps = app._fps
    ∧ (destruct app).1._frames = app._frames := by
  unfold destruct
  cases hw : app._window with
  | none => simp [hw]
  | some w => simp [ptr, hw]

/-- C10. The default key handler requests the window to close if and only if
the key is Escape and the action is press, and does nothing for any other
pair; a key event leaves `_running`, the clock samples and the counters of the
instance as they are. `run()` does not read the close flag: with the flag of
the window set to any value beforehand, `run()` returns the same value,
executes the same statements and leaves the same members (the window being
non-null in both or null in both). -/
theorem C10_key_handler (window : GLFWwindow) (key scancode action mods : Int)
    (app : Application) (e : KeyEvent) (i : FrameInput) (b : Bool) :
    ((Call.glfwSetWindowShouldClose Ptr.valid true
        ∈ (_default_key_callback window key scancode action mods).2)
      ↔ (key = GLFW_KEY_ESCAPE ∧ action = GLFW_PRESS))
    ∧ ((_default_key_callback window key scancode action mods) =
        if key = GLFW_KEY_ESCAPE ∧ action = GLFW_PRESS then
          ({ window with shouldClose := true },
            [Call.glfwSetWindowShouldClose Ptr.valid true])
        else (window, []))
    ∧ ((onKey app e).1._running = app._running
        ∧ (onKey app e).1._lastUpdate = app._lastUpdate
        ∧ (onKey app e).1._lastFPSUpdate = app._lastFPSUpdate
        ∧ (onKey app e).1._fps = app._fps
        ∧ (onKey app e).1._frames = app._frames)
    ∧ ((run (setClose b app) i).ret = (run app i).ret
        ∧ (run (setClose b app) i).trace = (run app i).trace
        ∧ (run (setClose b app) i).app._running = (run app i).app._running
        ∧ (run (setClose b app) i).app._lastUpdate = (run app i).app._lastUpdate
        ∧ (run (setClose b app) i).app._lastFPSUpdate = (run app i).app._lastFPSUpdate
        ∧ (run (setClose b app) i).app._fps = (run app i).app._fps
        ∧ (run (setClose b app) i).app._frames = (run app i).app._frames
        ∧ ptr (run (setClose b app) i).app._window = ptr (run app i).app._window) := by
  have hp := glfwPollEvents_setClose b app._window i.keys
  have hptr : ptr (setClose b app)._window = ptr app._window := by
    unfold setClose
    cases app._window <;> rfl
  refine ⟨?_, rfl, ?_, ?_⟩
  · rw [callback_eq]
    split <;> simp_all
  · unfold onKey
    split <;> simp
  · have hrun : (run (setClose b app) i).app._running = (run app i).app._running := by
      rw [run_app, run_app]
      rfl
    refine ⟨by rw [run_ret, run_ret, hrun], ?_, hrun, by rw [run_app, run_app],
      by rw [run_app, run_app]; rfl, by rw [run_app, run_app]; rfl,
      by rw [run_app, run_app]; rfl, ?_⟩
    · rw [run_trace_eq, run_trace_eq, hptr, runHook_calls_congr _ _ _ hptr,
        runHook_calls_congr i.render _ _ hptr]
      simp only [setClose, hp.1]
    · rw [run_app, run_app]
      exact hp.2

end Application

end s2d
